import Mathlib

/-!
Verification of the ai4infra operational toolkit against its specification.

The repository is a Python toolkit that installs, backs up, restores and
certificate-provisions Dockerized services.  The functions relevant to the
claims are shallowly embedded here:

* `generate_env`            from scripts/ai4infra/utils/container/env_manager.py
* `discover_services`       from scripts/ai4infra/utils/container/installer.py
* `check_container`         from scripts/ai4infra/utils/container/healthcheck.py
* `backup_data`             from scripts/ai4infra/utils/container/backup_manager.py
* restore backup selection  from scripts/ai4infra/ai4infra-cli.py (restore)
* `create_service_certificate` and helpers
                            from scripts/ai4infra/utils/certs_manager.py
* `encrypt_file`/`decrypt_file`
                            from scripts/ai4infra/utils/container/crypto_manager.py

Python dictionaries are embedded as insertion-ordered association lists,
the filesystem as an association list from paths (component lists) to file
contents, and external subprocess calls as explicit oracle parameters
recording whether the call succeeds and what bytes it produces.
-/

namespace Ai4Infra

/-! ## Python dict model

A Python `dict` is embedded as an insertion-ordered association list.
`dinsert` is `d[k] = v`: it updates the value in place when the key is
present (keeping its position) and appends otherwise.  `dlookup` is `d[k]`.
-/

abbrev Dict := List (String × String)

def dlookup : Dict → String → Option String
  | [], _ => none
  | (k, v) :: rest, key => if k = key then some v else dlookup rest key

def dinsert : Dict → String → String → Dict
  | [], key, v => [(key, v)]
  | (k, w) :: rest, key, v =>
      if k = key then (key, v) :: rest else (k, w) :: dinsert rest key v

/-- `{**a, **b, ...}`-style construction: fold a list of items into a dict. -/
def dofItems (items : List (String × String)) : Dict :=
  items.foldl (fun d p => dinsert d p.1 p.2) []

/-- Right-biased choice on `Option`, used to state override precedence. -/
def oor (a b : Option String) : Option String :=
  match a with
  | some v => some v
  | none => b

/-- The value the key would receive from one layer alone: the value of its
last occurrence in the layer's item list. -/
def layerVal : List (String × String) → String → Option String
  | [], _ => none
  | (k, v) :: rest, key =>
      oor (layerVal rest key) (if k = key then some v else none)

/-! ### Dict lemmas -/

theorem oor_assoc (a b c : Option String) : oor (oor a b) c = oor a (oor b c) := by
  cases a <;> simp [oor]

theorem dlookup_dinsert_self (d : Dict) (k v : String) :
    dlookup (dinsert d k v) k = some v := by
  induction d with
  | nil => simp [dinsert, dlookup]
  | cons p rest ih =>
    rcases p with ⟨k1, w⟩
    by_cases h : k1 = k
    · simp [dinsert, dlookup, h]
    · simp [dinsert, dlookup, h, ih]

theorem dlookup_dinsert_ne (d : Dict) (k key v : String) (hne : key ≠ k) :
    dlookup (dinsert d key v) k = dlookup d k := by
  induction d with
  | nil => simp [dinsert, dlookup, hne]
  | cons p rest ih =>
    rcases p with ⟨k1, w⟩
    by_cases h : k1 = key
    · subst h
      simp [dinsert, dlookup, hne]
    · by_cases h2 : k1 = k
      · simp [dinsert, dlookup, h, h2, hne.symm]
      · simp [dinsert, dlookup, h, h2, ih]

theorem dlookup_foldl_dinsert (items : List (String × String)) (acc : Dict)
    (key : String) :
    dlookup (items.foldl (fun d p => dinsert d p.1 p.2) acc) key =
      oor (layerVal items key) (dlookup acc key) := by
  induction items generalizing acc with
  | nil => simp [layerVal, oor]
  | cons p rest ih =>
    rcases p with ⟨k, v⟩
    simp only [List.foldl_cons]
    rw [ih]
    have hstep : dlookup (dinsert acc k v) key =
        oor (if k = key then some v else none) (dlookup acc key) := by
      by_cases h : k = key
      · subst h
        rw [dlookup_dinsert_self]
        simp [oor]
      · rw [dlookup_dinsert_ne _ _ _ _ h]
        simp [h, oor]
    rw [hstep, ← oor_assoc]
    rfl

theorem layerVal_append (a b : List (String × String)) (key : String) :
    layerVal (a ++ b) key = oor (layerVal b key) (layerVal a key) := by
  induction a with
  | nil => cases hb : layerVal b key <;> simp [layerVal, oor, hb]
  | cons p rest ih =>
    rcases p with ⟨k, v⟩
    simp only [List.cons_append, layerVal, List.append_eq, ih, oor_assoc]

theorem mem_dinsert (d : Dict) (k v : String) (p : String × String)
    (hp : p ∈ dinsert d k v) : p = (k, v) ∨ p ∈ d := by
  induction d with
  | nil => simpa [dinsert] using hp
  | cons q rest ih =>
    rcases q with ⟨k1, w⟩
    by_cases h : k1 = k
    · simp only [dinsert, if_pos h, List.mem_cons] at hp
      rcases hp with hp | hp
      · left; exact hp
      · right; simp [hp]
    · simp only [dinsert, if_neg h, List.mem_cons] at hp
      rcases hp with hp | hp
      · right; simp [hp]
      · rcases ih hp with hh | hh
        · left; exact hh
        · right; simp [hh]

theorem dinsert_ne_nil (d : Dict) (k v : String) : dinsert d k v ≠ [] := by
  cases d with
  | nil => simp [dinsert]
  | cons p rest =>
    rcases p with ⟨k1, w⟩
    by_cases h : k1 = k <;> simp [dinsert, h]

/-! ## Environment file generation

`generate_env` (env_manager.py, lines 80-151) merges four variable layers
into one dict — `{**base_env, **compose_vars, **container_env, **entry_vars}`
— then force-injects the standard path variables `DATA_DIR`, `CONF_DIR`,
`CERTS_DIR`, and writes the result as `key=value` lines to
`{BASE_DIR}/{service}/.env` unless the service directory is missing or the
merged map is empty.  The file-reading front ends (`extract_env_vars`,
`extract_config_vars`) are abstracted into the four layer parameters; the
`mv`/`chmod` subprocess pair is abstracted into one success flag (on its
failure the function unlinks the temp file and returns `""`).
-/

def BASE_DIR : String := "/opt/ai4infra"

structure EnvInput where
  /-- `extract_env_vars(".env", service)` — the base `.env` section. -/
  base : List (String × String)
  /-- `config.get("compose_vars", {})`. -/
  compose : List (String × String)
  /-- `config.get("env_vars", {})` (called `container_env` in the source). -/
  envv : List (String × String)
  /-- `config.get("entry_vars", {})`. -/
  entry : List (String × String)
  /-- `service_dir.exists()`. -/
  serviceDirExists : Bool
  /-- the `mv` + `chmod 600` subprocess pair succeeds. -/
  mvOk : Bool

/-- `merged = {**base_env, **compose_vars, **container_env, **entry_vars}`. -/
def mergeLayers (base compose envv entry : List (String × String)) : Dict :=
  dofItems (base ++ compose ++ envv ++ entry)

/-- The three forced path assignments (env_manager.py lines 104-107). -/
def injectPaths (service : String) (d : Dict) : Dict :=
  let home := BASE_DIR ++ "/" ++ service
  dinsert (dinsert (dinsert d "DATA_DIR" (home ++ "/data"))
      "CONF_DIR" (home ++ "/config"))
    "CERTS_DIR" (home ++ "/certs")

/-- Result of `generate_env`: the returned string and, when a `.env` file is
written, its `key=value` entries in file order (`none` = no file written). -/
def generate_env (service : String) (inp : EnvInput) : String × Option Dict :=
  let merged := injectPaths service
    (mergeLayers inp.base inp.compose inp.envv inp.entry)
  let outputFile := BASE_DIR ++ "/" ++ service ++ "/.env"
  if !inp.serviceDirExists then ("", none)
  else if merged.isEmpty then ("", none)
  else if inp.mvOk then (outputFile, some merged)
  else ("", none)

/-! ### C2: merge precedence -/

theorem dlookup_mergeLayers (base compose envv entry : List (String × String))
    (key : String) :
    dlookup (mergeLayers base compose envv entry) key =
      oor (layerVal entry key) (oor (layerVal envv key)
        (oor (layerVal compose key) (layerVal base key))) := by
  unfold mergeLayers dofItems
  rw [dlookup_foldl_dinsert]
  simp only [layerVal_append, oor_assoc]
  simp [dlookup, oor]
  cases layerVal entry key <;> cases layerVal envv key <;>
    cases layerVal compose key <;> cases layerVal base key <;> simp [oor]

/-- C2: `generate_env` merges the four layers in the order base `.env`
section, `compose_vars`, `env_vars`, `entry_vars`, later layers winning on
key collision; in particular for base={A:1}, compose={A:2,B:1}, env={A:3},
entry={A:4} the generated file contains `A=4` and `B=1`. -/
theorem generate_env_merge_precedence :
    (∀ (base compose envv entry : List (String × String)) (key : String),
      dlookup (mergeLayers base compose envv entry) key =
        oor (layerVal entry key) (oor (layerVal envv key)
          (oor (layerVal compose key) (layerVal base key)))) ∧
    (∃ d, (generate_env "svc"
        ⟨[("A", "1")], [("A", "2"), ("B", "1")], [("A", "3")], [("A", "4")],
          true, true⟩).2 = some d ∧
      dlookup d "A" = some "4" ∧ dlookup d "B" = some "1") := by
  refine ⟨dlookup_mergeLayers, ?_⟩
  refine ⟨injectPaths "svc"
    (mergeLayers [("A", "1")] [("A", "2"), ("B", "1")] [("A", "3")]
      [("A", "4")]), ?_, ?_, ?_⟩ <;> rfl

/-! ### C9: injected standard path variables always win -/

/-- C9: whenever `generate_env` writes a `.env` file, the file binds
`DATA_DIR`, `CONF_DIR` and `CERTS_DIR` to exactly the standard paths
`{BASE_DIR}/{service}/data`, `.../config`, `.../certs`, overriding all four
merge layers. -/
theorem generate_env_path_injection (service : String) (inp : EnvInput)
    (d : Dict) (hw : (generate_env service inp).2 = some d) :
    dlookup d "DATA_DIR" = some (BASE_DIR ++ "/" ++ service ++ "/data") ∧
    dlookup d "CONF_DIR" = some (BASE_DIR ++ "/" ++ service ++ "/config") ∧
    dlookup d "CERTS_DIR" = some (BASE_DIR ++ "/" ++ service ++ "/certs") := by
  have hd : d = injectPaths service
      (mergeLayers inp.base inp.compose inp.envv inp.entry) := by
    unfold generate_env at hw
    by_cases h1 : inp.serviceDirExists = true
    · by_cases h2 : (injectPaths service
          (mergeLayers inp.base inp.compose inp.envv inp.entry)).isEmpty = true
      · simp [h1, h2] at hw
      · by_cases h3 : inp.mvOk = true
        · simp only [h1, h2, h3, Bool.not_true, Bool.false_eq_true, if_false,
            if_true, if_pos] at hw
          exact (Option.some.injEq _ _ ▸ hw).symm
        · simp [h1, h2, h3] at hw
    · have h1f : inp.serviceDirExists = false := by simpa using h1
      simp [h1f] at hw
  subst hd
  unfold injectPaths
  refine ⟨?_, ?_, ?_⟩
  · rw [dlookup_dinsert_ne _ _ _ _ (by decide),
      dlookup_dinsert_ne _ _ _ _ (by decide), dlookup_dinsert_self]
  · rw [dlookup_dinsert_ne _ _ _ _ (by decide), dlookup_dinsert_self]
  · rw [dlookup_dinsert_self]

/-! ### C6: all-empty layers still produce a write

The claim says that with all four layers empty `generate_env` returns empty
and performs no write.  In the source the three standard path variables are
injected into `merged` *before* the `if not merged` guard (lines 104-119),
so the merged map is never empty: with all layers empty and the service
directory present, a three-entry `.env` file is written and the output path
is returned.  The empty-map guard is unreachable.
-/

/-- C6 counterexample: with all four layers empty (service directory
present, move succeeding), `generate_env` does NOT return empty and DOES
write a file — contradicting the claim at this concrete input. -/
theorem generate_env_empty_layers_counterexample :
    ¬((generate_env "postgres" ⟨[], [], [], [], true, true⟩).1 = "" ∧
      (generate_env "postgres" ⟨[], [], [], [], true, true⟩).2 = none) := by
  intro h
  have h1 := h.1
  rw [show (generate_env "postgres" ⟨[], [], [], [], true, true⟩).1 =
    "/opt/ai4infra/postgres/.env" from rfl] at h1
  exact absurd h1 (by decide)

/-- C6 amended: an empty `.env` file is never written, and with all four
layers empty (service directory present, move succeeding) `generate_env`
writes exactly the three injected standard path entries and returns the
output path. -/
theorem generate_env_empty_layers_amended (service : String) (inp : EnvInput) :
    (∀ d, (generate_env service inp).2 = some d → d ≠ []) ∧
    (inp.base = [] → inp.compose = [] → inp.envv = [] → inp.entry = [] →
      inp.serviceDirExists = true → inp.mvOk = true →
      generate_env service inp =
        (BASE_DIR ++ "/" ++ service ++ "/.env",
         some [("DATA_DIR", BASE_DIR ++ "/" ++ service ++ "/data"),
               ("CONF_DIR", BASE_DIR ++ "/" ++ service ++ "/config"),
               ("CERTS_DIR", BASE_DIR ++ "/" ++ service ++ "/certs")])) := by
  constructor
  · intro d hw hnil
    have := generate_env_path_injection service inp d hw
    rw [hnil] at this
    simp [dlookup] at this
  · intro h1 h2 h3 h4 h5 h6
    rcases inp with ⟨b, c, e, n, sd, mv⟩
    simp only at h1 h2 h3 h4 h5 h6
    subst h1; subst h2; subst h3; subst h4; subst h5; subst h6
    rfl

theorem generate_env_empty_layers_amended_witness :
    generate_env "vault" ⟨[], [], [], [], true, true⟩ =
      ("/opt/ai4infra/vault/.env",
       some [("DATA_DIR", "/opt/ai4infra/vault/data"),
             ("CONF_DIR", "/opt/ai4infra/vault/config"),
             ("CERTS_DIR", "/opt/ai4infra/vault/certs")]) :=
  (generate_env_empty_layers_amended "vault"
      ⟨[], [], [], [], true, true⟩).2 rfl rfl rfl rfl rfl rfl

theorem generate_env_path_injection_witness :
    (generate_env "vault" ⟨[], [], [], [], true, true⟩).2 =
      some [("DATA_DIR", "/opt/ai4infra/vault/data"),
            ("CONF_DIR", "/opt/ai4infra/vault/config"),
            ("CERTS_DIR", "/opt/ai4infra/vault/certs")] ∧
    dlookup ((generate_env "vault" ⟨[], [], [], [], true, true⟩).2.getD [])
        "DATA_DIR" = some "/opt/ai4infra/vault/data" := by
  refine ⟨rfl, ?_⟩
  exact (generate_env_path_injection "vault" ⟨[], [], [], [], true, true⟩
    _ rfl).1

/-! ## Service discovery

`discover_services` (installer.py, lines 10-33) scans `config/*.yml`; for
each file it parses the YAML (on parse failure it logs and `continue`s),
reads `cfg.get("service", {}).get("enable", False)` and appends the file
stem when that value is truthy.  A config file is embedded as its stem
together with its parse outcome; the `enable` value, when present, is a
YAML boolean.
-/

structure SvcSection where
  /-- `service.enable`, `none` when the key is absent. -/
  enable : Option Bool

structure SvcConfig where
  /-- the top-level `service` mapping, `none` when the key is absent. -/
  service : Option SvcSection

inductive YamlParse where
  /-- `yaml.safe_load` succeeded (an empty file yields `ok ⟨none⟩`). -/
  | ok (cfg : SvcConfig)
  /-- `yaml.safe_load` raised. -/
  | err

/-- `cfg.get("service", {}).get("enable", False)` as a boolean. -/
def cfgEnabled : YamlParse → Bool
  | .ok cfg => ((cfg.service.bind (fun s => s.enable)).getD false)
  | .err => false

def discover_services : List (String × YamlParse) → List String
  | [] => []
  | (name, pr) :: rest =>
    match pr with
    | .err => discover_services rest
    | .ok cfg =>
      if ((cfg.service.bind (fun s => s.enable)).getD false) then
        name :: discover_services rest
      else
        discover_services rest

/-- C5: discovery returns exactly the stems of parseable files with
`service.enable == true`: enabled services are included, `enable: false` or
absent is excluded, and a file whose YAML fails to parse is skipped while
the scan of the remaining files proceeds unchanged. -/
theorem discover_services_spec :
    (∀ files : List (String × YamlParse),
      discover_services files =
        (files.filter (fun p => cfgEnabled p.2)).map Prod.fst) ∧
    (∀ (name : String) (rest : List (String × YamlParse)),
      discover_services ((name, YamlParse.err) :: rest) =
        discover_services rest) ∧
    (∀ (name : String) (rest : List (String × YamlParse)),
      discover_services ((name, YamlParse.ok ⟨some ⟨some true⟩⟩) :: rest) =
        name :: discover_services rest) ∧
    (∀ (name : String) (rest : List (String × YamlParse)) (e : Option Bool),
      e ≠ some true →
      discover_services ((name, YamlParse.ok ⟨some ⟨e⟩⟩) :: rest) =
        discover_services rest) := by
  refine ⟨?_, ?_, ?_, ?_⟩
  · intro files
    induction files with
    | nil => rfl
    | cons p rest ih =>
      rcases p with ⟨name, pr⟩
      cases pr with
      | err => simpa [discover_services, cfgEnabled] using ih
      | ok cfg =>
        by_cases h : ((cfg.service.bind (fun s => s.enable)).getD false) = true
        · simpa [discover_services, cfgEnabled, h] using ih
        · simpa [discover_services, cfgEnabled, h] using ih
  · intro name rest; rfl
  · intro name rest; rfl
  · intro name rest e he
    cases e with
    | none => rfl
    | some b =>
      cases b with
      | true => exact absurd rfl he
      | false => rfl

theorem discover_services_spec_witness :
    discover_services
        [("postgres", YamlParse.ok ⟨some ⟨some true⟩⟩),
         ("vault", YamlParse.ok ⟨some ⟨some false⟩⟩),
         ("broken", YamlParse.err),
         ("ldap", YamlParse.ok ⟨some ⟨none⟩⟩),
         ("nginx", YamlParse.ok ⟨some ⟨some true⟩⟩)] =
      ["postgres", "nginx"] := by
  have h := (discover_services_spec.2.2.2 "vault"
    [("broken", YamlParse.err),
     ("ldap", YamlParse.ok ⟨some ⟨none⟩⟩),
     ("nginx", YamlParse.ok ⟨some ⟨some true⟩⟩)] (some false) (by decide))
  rw [discover_services_spec.2.2.1, h, discover_services_spec.2.1,
    discover_services_spec.2.2.2 "ldap" _ none (by decide),
    discover_services_spec.2.2.1]
  rfl

/-! ## Python string helpers

Character-level models of the Python string operations used by the
healthcheck and restore code: `.lower()`, `.strip()`, `.splitlines()` and
the `in` substring test.
-/

def pyLower (s : String) : String := ⟨s.data.map Char.toLower⟩

def startsList : List Char → List Char → Bool
  | [], _ => true
  | _ :: _, [] => false
  | a :: as, b :: bs => a = b && startsList as bs

/-- `needle in hay` on character lists. -/
def hasSub (needle : List Char) : List Char → Bool
  | [] => needle.isEmpty
  | c :: t => startsList needle (c :: t) || hasSub needle t

/-- Python `needle in hay` on strings. -/
def pyIn (needle hay : String) : Bool := hasSub needle.data hay.data

def isSpaceChar (c : Char) : Bool :=
  c = ' ' || c = '\t' || c = '\n' || c = '\r'

/-- Python `str.strip()` (whitespace at both ends). -/
def pyStrip (s : String) : String :=
  ⟨((s.data.dropWhile isSpaceChar).reverse.dropWhile isSpaceChar).reverse⟩

def splitLinesChar : List Char → List (List Char)
  | [] => [[]]
  | a :: t =>
    match splitLinesChar t with
    | [] => [[]]
    | g :: gs => if a = '\n' then [] :: g :: gs else (a :: g) :: gs

/-- Python `str.splitlines()` restricted to `'\n'` separators; like Python
it returns `[]` on the empty string.  The inputs it is applied to are
already stripped, so no trailing-newline group arises. -/
def pySplitlines (s : String) : List String :=
  if s.isEmpty then [] else (splitLinesChar s.data).map (fun l => ⟨l⟩)

/-! ## Container healthcheck

`check_container` (healthcheck.py, lines 7-91) polls
`docker ps --filter name=... --format Status` up to 120 times.  Each
attempt either continues the loop (no container yet / still starting),
fails immediately (Bitwarden `unhealthy`), or breaks out successfully.
After the loop, `docker logs` output is scanned case-insensitively for the
substrings "error"/"failed": a match is only logged as a warning.  Finally
an optional custom check decides the result; without one the function
returns `True`.

The Docker daemon is an oracle: `psOut n` is the `docker ps` stdout at
attempt `n` and `logsOut` the `docker logs` stdout.  The trace records the
log-scan message (the poll-phase log lines are inessential and untraced);
`custom` is the custom check's result when one is supplied.
-/

structure DockerEnv where
  psOut : Nat → String
  logsOut : String

inductive LogLevel where
  | info
  | warn
  | error
deriving DecidableEq

/-- One iteration of the polling loop: `none` = `continue`,
`some true` = `break` (success), `some false` = immediate `return False`. -/
def pollStep (service : String) (out : String) : Option Bool :=
  let statuses := pySplitlines (pyStrip out)
  if statuses.isEmpty then none
  else if service = "bitwarden" then
    let low := pyLower out
    if pyIn "unhealthy" low then some false
    else if pyIn "starting" low then none
    else some true
  else if service = "vault" then
    if statuses.any (fun s => pyIn "up" (pyLower s)) then some true else none
  else
    if statuses.any (fun s => pyIn "up" (pyLower s)) then some true else none

/-- The `for attempt in range(120)` loop; `false` covers both the for-else
exhaustion branch and the Bitwarden immediate failure. -/
def pollLoop (service : String) (ps : Nat → String) : Nat → Nat → Bool
  | _, 0 => false
  | attempt, fuel + 1 =>
    match pollStep service (ps attempt) with
    | some b => b
    | none => pollLoop service ps (attempt + 1) fuel

def scanWarnText : String := "[check_container] log error/failed detected"

def scanInfoText : String := "[check_container] log clean"

def check_container (service : String) (env : DockerEnv)
    (custom : Option Bool) : Bool × List (LogLevel × String) :=
  if pollLoop service env.psOut 0 120 then
    let low := pyLower env.logsOut
    let scanMsg :=
      if pyIn "error" low || pyIn "failed" low then
        (LogLevel.warn, scanWarnText)
      else
        (LogLevel.info, scanInfoText)
    match custom with
    | some b => (b, [scanMsg])
    | none => (true, [scanMsg])
  else (false, [])

/-- C7: when the status polling succeeds and no custom check is supplied,
an occurrence of "error" or "failed" (case-insensitively) in the container
logs is logged as a warning only — nothing at error level — and
`check_container` still returns `true`. -/
theorem check_container_log_matches_soft (service : String) (env : DockerEnv)
    (hpoll : pollLoop service env.psOut 0 120 = true)
    (hmatch : pyIn "error" (pyLower env.logsOut) = true ∨
      pyIn "failed" (pyLower env.logsOut) = true) :
    (check_container service env none).1 = true ∧
    (check_container service env none).2 = [(LogLevel.warn, scanWarnText)] ∧
    ∀ m ∈ (check_container service env none).2, m.1 ≠ LogLevel.error := by
  have hm : (pyIn "error" (pyLower env.logsOut) ||
      pyIn "failed" (pyLower env.logsOut)) = true := by
    rcases hmatch with h | h <;> simp [h]
  have hcc : check_container service env none =
      (true, [(LogLevel.warn, scanWarnText)]) := by
    unfold check_container
    simp only [hpoll, hm, if_true]
  rw [hcc]
  refine ⟨rfl, rfl, ?_⟩
  intro m hmem
  simp only [List.mem_singleton] at hmem
  subst hmem
  simp

theorem check_container_log_matches_soft_witness :
    (check_container "postgres"
        ⟨fun _ => "Up 5 seconds (healthy)", "FATAL: connection FAILED"⟩
        none).1 = true ∧
    (check_container "postgres"
        ⟨fun _ => "Up 5 seconds (healthy)", "FATAL: connection FAILED"⟩
        none).2 = [(LogLevel.warn, scanWarnText)] ∧
    ∀ m ∈ (check_container "postgres"
        ⟨fun _ => "Up 5 seconds (healthy)", "FATAL: connection FAILED"⟩
        none).2, m.1 ≠ LogLevel.error :=
  check_container_log_matches_soft "postgres"
    ⟨fun _ => "Up 5 seconds (healthy)", "FATAL: connection FAILED"⟩
    (by decide) (Or.inr (by decide))

/-! ## Restore backup selection

When `restore` (ai4infra-cli.py, lines 308-339) is invoked without an
explicit backup path it lists the backup directory, keeps names that start
with `{service}_` and end with `.gpg`, sorts them with
`files.sort(reverse=True)` (descending lexicographic order by code point)
and picks `files[0]`.  `strLe` is Python's string comparison — code-point
lexicographic — and `pySortDesc` a descending insertion sort, extensionally
equal to `list.sort(reverse=True)` on strings (the order is total, so
stability is irrelevant).
-/

/-- Code-point lexicographic comparison, Python's `<=` on strings. -/
def charListLe : List Char → List Char → Bool
  | [], _ => true
  | _ :: _, [] => false
  | a :: as, b :: bs =>
    if a.toNat < b.toNat then true
    else if b.toNat < a.toNat then false
    else charListLe as bs

def strLe (a b : String) : Bool := charListLe a.data b.data

def pyStartsWith (s pre : String) : Bool := startsList pre.data s.data

def pyEndsWith (s suf : String) : Bool :=
  startsList suf.data.reverse s.data.reverse

theorem charListLe_refl : ∀ a : List Char, charListLe a a = true
  | [] => rfl
  | c :: cs => by simp [charListLe, charListLe_refl cs]

theorem charListLe_total : ∀ a b : List Char,
    charListLe a b = false → charListLe b a = true
  | [], _ => by simp [charListLe]
  | _ :: _, [] => by simp [charListLe]
  | a :: as, b :: bs => by
    intro h
    simp only [charListLe] at h ⊢
    by_cases hab : a.toNat < b.toNat
    · simp [hab] at h
    · by_cases hba : b.toNat < a.toNat
      · simp [hba]
      · simp only [hab, hba, if_false] at h
        simp only [hab, hba, if_false]
        exact charListLe_total as bs h

theorem charListLe_trans : ∀ a b c : List Char,
    charListLe a b = true → charListLe b c = true → charListLe a c = true
  | [], _, _ => by simp [charListLe]
  | _ :: _, [], _ => by simp [charListLe]
  | _ :: _, _ :: _, [] => by simp [charListLe]
  | a :: as, b :: bs, c :: cs => by
    intro h1 h2
    simp only [charListLe] at h1 h2 ⊢
    by_cases hab : a.toNat < b.toNat
    · by_cases hbc : b.toNat < c.toNat
      · rw [if_pos (by omega : a.toNat < c.toNat)]
      · by_cases hcb : c.toNat < b.toNat
        · rw [if_neg hbc, if_pos hcb] at h2
          exact absurd h2 (by simp)
        · rw [if_pos (by omega : a.toNat < c.toNat)]
    · by_cases hba : b.toNat < a.toNat
      · rw [if_neg hab, if_pos hba] at h1
        exact absurd h1 (by simp)
      · by_cases hbc : b.toNat < c.toNat
        · rw [if_pos (by omega : a.toNat < c.toNat)]
        · by_cases hcb : c.toNat < b.toNat
          · rw [if_neg hbc, if_pos hcb] at h2
            exact absurd h2 (by simp)
          · rw [if_neg hab, if_neg hba] at h1
            rw [if_neg hbc, if_neg hcb] at h2
            rw [if_neg (by omega : ¬a.toNat < c.toNat),
              if_neg (by omega : ¬c.toNat < a.toNat)]
            exact charListLe_trans as bs cs h1 h2

def insertDesc (x : String) : List String → List String
  | [] => [x]
  | y :: ys => if strLe y x then x :: y :: ys else y :: insertDesc x ys

def pySortDesc : List String → List String
  | [] => []
  | x :: xs => insertDesc x (pySortDesc xs)

def backupMatches (service : String) (listing : List String) : List String :=
  listing.filter (fun f => pyStartsWith f (service ++ "_") && pyEndsWith f ".gpg")

/-- The backup the `restore` command picks when no path is given:
`files.sort(reverse=True); files[0]`. -/
def restorePickLatest (service : String) (listing : List String) :
    Option String :=
  match pySortDesc (backupMatches service listing) with
  | [] => none
  | f :: _ => some f

theorem pySortDesc_head_max (l : List String) (h : l ≠ []) :
    ∃ m rest, pySortDesc l = m :: rest ∧ m ∈ l ∧
      ∀ a ∈ l, strLe a m = true := by
  induction l with
  | nil => exact absurd rfl h
  | cons x xs ih =>
    cases hxs : xs with
    | nil =>
      refine ⟨x, [], by simp [pySortDesc, insertDesc], by simp, ?_⟩
      intro a ha
      simp [hxs] at ha
      simp [ha, strLe, charListLe_refl]
    | cons y ys =>
      subst hxs
      rcases ih (by simp) with ⟨m, rest, hsort, hmem, hmax⟩
      by_cases hle : strLe m x = true
      · refine ⟨x, m :: rest, ?_, by simp, ?_⟩
        · show insertDesc x (pySortDesc (y :: ys)) = x :: m :: rest
          rw [hsort]
          simp [insertDesc, hle]
        · intro a ha
          rcases List.mem_cons.mp ha with ha | ha
          · simp [ha, strLe, charListLe_refl]
          · exact charListLe_trans _ _ _ (hmax a ha) hle
      · have hlef : strLe m x = false := by
          cases hb : strLe m x
          · rfl
          · exact absurd hb hle
        have hxm : strLe x m = true := charListLe_total _ _ hlef
        refine ⟨m, insertDesc x rest, ?_, by simp [hmem], ?_⟩
        · show insertDesc x (pySortDesc (y :: ys)) = m :: insertDesc x rest
          rw [hsort]
          simp [insertDesc, hlef]
        · intro a ha
          rcases List.mem_cons.mp ha with ha | ha
          · rw [ha]; exact hxm
          · exact hmax a ha

/-- C4: when restore is invoked without an explicit backup path and some
artifact name matches (`{service}_` prefix, `.gpg` suffix), the backup
chosen is the head of the descending lexicographic sort of the matching
names — their maximum under Python string comparison. -/
theorem restore_picks_latest_backup (service : String) (listing : List String)
    (h : backupMatches service listing ≠ []) :
    ∃ m, restorePickLatest service listing = some m ∧
      m ∈ backupMatches service listing ∧
      ∀ f ∈ backupMatches service listing, strLe f m = true := by
  rcases pySortDesc_head_max (backupMatches service listing) h with
    ⟨m, rest, hsort, hmem, hmax⟩
  exact ⟨m, by simp [restorePickLatest, hsort], hmem, hmax⟩

theorem restore_picks_latest_backup_witness :
    backupMatches "postgres"
        ["postgres_20250101_090000.tar.gz.gpg", "readme.txt",
         "postgres_20250301_120000.tar.gz.gpg",
         "vault_20250401_000000.tar.gz.gpg",
         "postgres_20250202_000000.tar.gz.gpg"] ≠ [] ∧
    ∃ m, restorePickLatest "postgres"
        ["postgres_20250101_090000.tar.gz.gpg", "readme.txt",
         "postgres_20250301_120000.tar.gz.gpg",
         "vault_20250401_000000.tar.gz.gpg",
         "postgres_20250202_000000.tar.gz.gpg"] = some m ∧
      m ∈ backupMatches "postgres"
        ["postgres_20250101_090000.tar.gz.gpg", "readme.txt",
         "postgres_20250301_120000.tar.gz.gpg",
         "vault_20250401_000000.tar.gz.gpg",
         "postgres_20250202_000000.tar.gz.gpg"] ∧
      ∀ f ∈ backupMatches "postgres"
        ["postgres_20250101_090000.tar.gz.gpg", "readme.txt",
         "postgres_20250301_120000.tar.gz.gpg",
         "vault_20250401_000000.tar.gz.gpg",
         "postgres_20250202_000000.tar.gz.gpg"], strLe f m = true :=
  ⟨by decide, restore_picks_latest_backup "postgres" _ (by decide)⟩

/-! ## Backup

`backup_data` (backup_manager.py, lines 133-233) aborts with `""` when
`BACKUP_PASSWORD` is unset — the guard is the first statement, before the
temp directory is created or any data is collected.  Otherwise it creates
a temp directory, collects data (a pg_dump hook, a Vault raft-snapshot
hook, or a `cp -a` of the data directory depending on the config `method`),
tars it, encrypts the tarball with GPG, cleans up and returns the artifact
path.  External effects are recorded in an ordered action trace; subprocess
outcomes come from a `BackupEnv` oracle.
-/

inductive BAction where
  /-- `mkdir -p` of the temp working directory. -/
  | mkdirTemp
  /-- `docker exec ... pg_dump` into the temp directory. -/
  | collectPgDump
  /-- `vault operator raft snapshot save` + `docker cp` out. -/
  | collectRaftSnapshot
  /-- `cp -a` of the service data directory. -/
  | collectCopy
  /-- `tar -czf` of the temp directory. -/
  | tarCreate
  /-- `mkdir -p` of the backup directory. -/
  | mkdirBackupDir
  /-- the GPG encryption of the tarball. -/
  | encryptArtifact
  /-- removal of the temp directory (and tar file where applicable). -/
  | cleanup
deriving DecidableEq

structure BackupEnv where
  /-- `BACKUP_PASSWORD` from the environment (`none` = unset). -/
  password : Option String
  /-- `config.backup.method`, defaulting to `"copy"`. -/
  method : String
  /-- the pg_dump / raft-snapshot hook succeeds. -/
  hookOk : Bool
  /-- `sudo_exists(src_dir)` for the copy method. -/
  dataDirExists : Bool
  /-- the `tar -czf` call succeeds. -/
  tarOk : Bool
  /-- `encrypt_file` succeeds. -/
  encryptOk : Bool

/-- Python truthiness of `not BACKUP_PASSWORD`: unset or empty. -/
def pyFalsyStr : Option String → Bool
  | none => true
  | some s => s.isEmpty

/-- Result string of `backup_data` paired with the trace of its external
effects, in program order. -/
def backup_data (service timestamp : String) (env : BackupEnv) :
    String × List BAction :=
  if pyFalsyStr env.password then ("", [])
  else
    let backupDir := BASE_DIR ++ "/backups/" ++ service
    let collected :=
      if env.method = "pg_dump" then env.hookOk
      else if env.method = "raft_snapshot" then env.hookOk
      else env.dataDirExists
    let collectAct :=
      if env.method = "pg_dump" then [BAction.collectPgDump]
      else if env.method = "raft_snapshot" then [BAction.collectRaftSnapshot]
      else if env.dataDirExists then [BAction.collectCopy]
      else []
    let acts := BAction.mkdirTemp :: collectAct
    if !collected then ("", acts ++ [BAction.cleanup])
    else if !env.tarOk then ("", acts ++ [BAction.tarCreate, BAction.cleanup])
    else
      let acts := acts ++ [BAction.tarCreate, BAction.mkdirBackupDir,
        BAction.encryptArtifact, BAction.cleanup]
      if env.encryptOk then
        (backupDir ++ "/" ++ service ++ "_" ++ timestamp ++ ".tar.gz.gpg", acts)
      else ("", acts)

/-- C8: when the GPG passphrase (`BACKUP_PASSWORD`) is absent,
`backup_data` fails with the empty string before performing any external
effect — no data is collected and no backup artifact is created. -/
theorem backup_data_requires_password (service timestamp : String)
    (env : BackupEnv) (h : pyFalsyStr env.password = true) :
    backup_data service timestamp env = ("", []) := by
  unfold backup_data
  rw [h]
  rfl

theorem backup_data_requires_password_witness :
    backup_data "postgres" "20250101_000000"
        ⟨none, "pg_dump", true, true, true, true⟩ = ("", []) :=
  backup_data_requires_password "postgres" "20250101_000000"
    ⟨none, "pg_dump", true, true, true, true⟩ rfl

/-! ## Filesystem model

Paths are component lists (`/opt/ai4infra/vault/certs/private.key` is
`["opt", "ai4infra", "vault", "certs", "private.key"]`); a filesystem is an
association list from paths to file contents. `fput` models writing a file,
`fget` reading it.
-/

abbrev Path := List String

abbrev FS (α : Type) := List (Path × α)

def fget {α : Type} : FS α → Path → Option α
  | [], _ => none
  | (p, c) :: rest, q => if p = q then some c else fget rest q

def fput {α : Type} : FS α → Path → α → FS α
  | [], p, c => [(p, c)]
  | (q, d) :: rest, p, c =>
      if q = p then (p, c) :: rest else (q, d) :: fput rest p c

def fexists {α : Type} (fs : FS α) (p : Path) : Bool := (fget fs p).isSome

theorem fget_fput_self {α : Type} (fs : FS α) (p : Path) (c : α) :
    fget (fput fs p c) p = some c := by
  induction fs with
  | nil => simp [fput, fget]
  | cons e rest ih =>
    rcases e with ⟨q, d⟩
    by_cases h : q = p
    · simp [fput, fget, h]
    · simp [fput, fget, h, ih]

theorem fget_fput_ne {α : Type} (fs : FS α) (p q : Path) (c : α)
    (hne : p ≠ q) : fget (fput fs p c) q = fget fs q := by
  induction fs with
  | nil => simp [fput, fget, hne]
  | cons e rest ih =>
    rcases e with ⟨r, d⟩
    by_cases h : r = p
    · subst h
      simp [fput, fget, hne]
    · by_cases h2 : r = q
      · simp [fput, fget, h, h2, Ne.symm hne]
      · simp [fput, fget, h, h2, ih]

/-- `cp -a src dst` run with `check=True`: fails when the source is
missing, otherwise writes the source bytes at the destination. -/
def cp_a {α : Type} (fs : FS α) (src dst : Path) : FS α × Bool :=
  match fget fs src with
  | some c => (fput fs dst c, true)
  | none => (fs, false)

/-! ## Certificate manager

From certs_manager.py.  The global root CA lives at
`{BASE_DIR}/certs/ca/rootCA.{key,pem}`; each service keeps
`private.key` / `request.csr` / `certificate.crt` under
`{BASE_DIR}/{service}/certs` and receives a copy of the root CA as
`rootCA.crt` there (Bitwarden instead under
`bwdata/ssl/{domain}/ca.crt`).  The `openssl` subprocess calls are an
oracle (`SslEnv`): a success flag and the bytes produced per call.
-/

def CA_KEY : Path := ["opt", "ai4infra", "certs", "ca", "rootCA.key"]

def CA_CERT : Path := ["opt", "ai4infra", "certs", "ca", "rootCA.pem"]

def BITWARDEN_DOMAIN : String := "bitwarden.ai4infra.internal"

/-- `(key_path, csr_path, cert_path)` per service. -/
def get_service_cert_paths (service : String) : Path × Path × Path :=
  (["opt", "ai4infra", service, "certs", "private.key"],
   ["opt", "ai4infra", service, "certs", "request.csr"],
   ["opt", "ai4infra", service, "certs", "certificate.crt"])

/-- Destination of the root CA copy inside the service directory. -/
def deployDst (service : String) : Path :=
  if service = "bitwarden" then
    ["opt", "ai4infra", "bitwarden", "bwdata", "ssl", BITWARDEN_DOMAIN,
     "ca.crt"]
  else
    ["opt", "ai4infra", service, "certs", "rootCA.crt"]

structure SslEnv where
  /-- `openssl genrsa` for the root CA key succeeds / its bytes. -/
  caKeyOk : Bool
  caKeyBytes : String
  /-- `openssl req -x509` for the root CA certificate / its bytes. -/
  caCertOk : Bool
  caCertBytes : String
  /-- `openssl genrsa` for the service key / its bytes. -/
  svcKeyOk : Bool
  svcKeyBytes : String
  /-- `openssl req -new` for the CSR / its bytes. -/
  csrOk : Bool
  csrBytes : String
  /-- `openssl x509 -req` CA signing / the leaf certificate bytes. -/
  signOk : Bool
  certBytes : String
  /-- `openssl verify` against the root CA. -/
  verifyOk : Bool

def create_root_ca (fs : FS String) (overwrite : Bool) (env : SslEnv) :
    FS String × Bool :=
  if fexists fs CA_CERT && fexists fs CA_KEY && !overwrite then (fs, true)
  else if !env.caKeyOk then (fs, false)
  else
    let fs1 := fput fs CA_KEY env.caKeyBytes
    if !env.caCertOk then (fs1, false)
    else (fput fs1 CA_CERT env.caCertBytes, true)

def generate_root_ca_if_needed (fs : FS String) (env : SslEnv) :
    FS String × Bool :=
  if fexists fs CA_CERT && fexists fs CA_KEY then (fs, true)
  else create_root_ca fs false env

def create_service_key (fs : FS String) (keyPath : Path) (env : SslEnv) :
    FS String × Bool :=
  if env.svcKeyOk then (fput fs keyPath env.svcKeyBytes, true) else (fs, false)

def create_service_csr (fs : FS String) (csrPath : Path) (env : SslEnv) :
    FS String × Bool :=
  if env.csrOk then (fput fs csrPath env.csrBytes, true) else (fs, false)

def sign_service_cert_with_ca (fs : FS String) (certPath : Path)
    (env : SslEnv) : FS String × Bool :=
  if env.signOk then (fput fs certPath env.certBytes, true) else (fs, false)

def verify_service_cert (env : SslEnv) : Bool := env.verifyOk

def deploy_root_ca_to_service (fs : FS String) (service : String)
    (caSrc : Path) : FS String × Bool :=
  cp_a fs caSrc (deployDst service)

/-- `create_service_certificate` (certs_manager.py, lines 473-542).  When
the key or the certificate already exists and `overwrite` is false, the
generation steps are skipped, the root CA is (re)deployed — its result
ignored — and the call returns success. -/
def create_service_certificate (fs : FS String) (service : String)
    (overwrite : Bool) (env : SslEnv) : FS String × Bool :=
  let r0 := generate_root_ca_if_needed fs env
  if !r0.2 then (r0.1, false)
  else
    let fs0 := r0.1
    let paths := get_service_cert_paths service
    let keyPath := paths.1
    let csrPath := paths.2.1
    let certPath := paths.2.2
    if (fexists fs0 keyPath || fexists fs0 certPath) && !overwrite then
      ((deploy_root_ca_to_service fs0 service CA_CERT).1, true)
    else
      let r1 := create_service_key fs0 keyPath env
      if !r1.2 then (r1.1, false)
      else
        let r2 := create_service_csr r1.1 csrPath env
        if !r2.2 then (r2.1, false)
        else
          let r3 := sign_service_cert_with_ca r2.1 certPath env
          if !r3.2 then (r3.1, false)
          else if !verify_service_cert env then (r3.1, false)
          else
            let r4 := deploy_root_ca_to_service r3.1 service CA_CERT
            if !r4.2 then (r4.1, false) else (r4.1, true)

/-! ### Path disjointness facts used by the skip branch -/

theorem deployDst_ne_keyPath (service : String) :
    deployDst service ≠ (get_service_cert_paths service).1 := by
  unfold deployDst get_service_cert_paths BITWARDEN_DOMAIN
  by_cases h : service = "bitwarden" <;> simp [h]

theorem deployDst_ne_certPath (service : String) :
    deployDst service ≠ (get_service_cert_paths service).2.2 := by
  unfold deployDst get_service_cert_paths BITWARDEN_DOMAIN
  by_cases h : service = "bitwarden" <;> simp [h]

/-! ### C1 / C10: skip branch behaviour -/

/-- C1: for a service whose private key and certificate files already
exist (after a successful first run the root CA exists too), calling
`create_service_certificate` again without `overwrite` returns success,
leaves the key and certificate files byte-identical, and still (re)deploys
the root CA copy into the service's certificate directory. -/
theorem create_service_certificate_idempotent (service : String)
    (fs : FS String) (env : SslEnv) (cac : String)
    (hca : fget fs CA_CERT = some cac)
    (hcak : fexists fs CA_KEY = true)
    (hkey : fexists fs (get_service_cert_paths service).1 = true)
    (_hcert : fexists fs (get_service_cert_paths service).2.2 = true) :
    (create_service_certificate fs service false env).2 = true ∧
    fget (create_service_certificate fs service false env).1
        (get_service_cert_paths service).1 =
      fget fs (get_service_cert_paths service).1 ∧
    fget (create_service_certificate fs service false env).1
        (get_service_cert_paths service).2.2 =
      fget fs (get_service_cert_paths service).2.2 ∧
    fget (create_service_certificate fs service false env).1
        (deployDst service) = some cac := by
  have hcaex : fexists fs CA_CERT = true := by simp [fexists, hca]
  have hr : create_service_certificate fs service false env =
      (fput fs (deployDst service) cac, true) := by
    unfold create_service_certificate generate_root_ca_if_needed
    simp only [hcaex, hcak, Bool.and_self, Bool.true_and, if_true,
      Bool.not_true, Bool.false_eq_true, if_false, hkey, Bool.true_or,
      Bool.not_false, Bool.and_true, if_pos]
    unfold deploy_root_ca_to_service cp_a
    rw [hca]
  rw [hr]
  refine ⟨rfl, ?_, ?_, ?_⟩
  · exact fget_fput_ne fs _ _ cac (deployDst_ne_keyPath service)
  · exact fget_fput_ne fs _ _ cac (deployDst_ne_certPath service)
  · exact fget_fput_self fs _ cac

theorem create_service_certificate_idempotent_witness :
    (create_service_certificate
        [(CA_KEY, "cakey"), (CA_CERT, "cacert"),
         (["opt", "ai4infra", "vault", "certs", "private.key"], "leafkey"),
         (["opt", "ai4infra", "vault", "certs", "certificate.crt"], "leafcrt")]
        "vault" false
        ⟨false, "", false, "", false, "", false, "", false, "", false⟩).2 =
      true ∧
    fget (create_service_certificate
        [(CA_KEY, "cakey"), (CA_CERT, "cacert"),
         (["opt", "ai4infra", "vault", "certs", "private.key"], "leafkey"),
         (["opt", "ai4infra", "vault", "certs", "certificate.crt"], "leafcrt")]
        "vault" false
        ⟨false, "", false, "", false, "", false, "", false, "", false⟩).1
        (get_service_cert_paths "vault").1 =
      fget [(CA_KEY, "cakey"), (CA_CERT, "cacert"),
         (["opt", "ai4infra", "vault", "certs", "private.key"], "leafkey"),
         (["opt", "ai4infra", "vault", "certs", "certificate.crt"], "leafcrt")]
        (get_service_cert_paths "vault").1 ∧
    fget (create_service_certificate
        [(CA_KEY, "cakey"), (CA_CERT, "cacert"),
         (["opt", "ai4infra", "vault", "certs", "private.key"], "leafkey"),
         (["opt", "ai4infra", "vault", "certs", "certificate.crt"], "leafcrt")]
        "vault" false
        ⟨false, "", false, "", false, "", false, "", false, "", false⟩).1
        (get_service_cert_paths "vault").2.2 =
      fget [(CA_KEY, "cakey"), (CA_CERT, "cacert"),
         (["opt", "ai4infra", "vault", "certs", "private.key"], "leafkey"),
         (["opt", "ai4infra", "vault", "certs", "certificate.crt"], "leafcrt")]
        (get_service_cert_paths "vault").2.2 ∧
    fget (create_service_certificate
        [(CA_KEY, "cakey"), (CA_CERT, "cacert"),
         (["opt", "ai4infra", "vault", "certs", "private.key"], "leafkey"),
         (["opt", "ai4infra", "vault", "certs", "certificate.crt"], "leafcrt")]
        "vault" false
        ⟨false, "", false, "", false, "", false, "", false, "", false⟩).1
        (deployDst "vault") = some "cacert" :=
  create_service_certificate_idempotent "vault"
    [(CA_KEY, "cakey"), (CA_CERT, "cacert"),
     (["opt", "ai4infra", "vault", "certs", "private.key"], "leafkey"),
     (["opt", "ai4infra", "vault", "certs", "certificate.crt"], "leafcrt")]
    ⟨false, "", false, "", false, "", false, "", false, "", false⟩
    "cacert" (by decide) (by decide) (by decide) (by decide)

/-- C10: with `overwrite=False`, the presence of the private key alone
(certificate absent) already triggers the skip: the call returns success,
generates no certificate (the certificate file stays absent), leaves the
key untouched, and only deploys the root CA copy. -/
theorem create_service_certificate_skips_on_key_only (service : String)
    (fs : FS String) (env : SslEnv) (cac : String)
    (hca : fget fs CA_CERT = some cac)
    (hcak : fexists fs CA_KEY = true)
    (hkey : fexists fs (get_service_cert_paths service).1 = true)
    (hcert : fget fs (get_service_cert_paths service).2.2 = none) :
    (create_service_certificate fs service false env).2 = true ∧
    fget (create_service_certificate fs service false env).1
        (get_service_cert_paths service).2.2 = none ∧
    fget (create_service_certificate fs service false env).1
        (get_service_cert_paths service).1 =
      fget fs (get_service_cert_paths service).1 ∧
    fget (create_service_certificate fs service false env).1
        (deployDst service) = some cac := by
  have hcaex : fexists fs CA_CERT = true := by simp [fexists, hca]
  have hr : create_service_certificate fs service false env =
      (fput fs (deployDst service) cac, true) := by
    unfold create_service_certificate generate_root_ca_if_needed
    simp only [hcaex, hcak, Bool.and_self, Bool.true_and, if_true,
      Bool.not_true, Bool.false_eq_true, if_false, hkey, Bool.true_or,
      Bool.not_false, Bool.and_true, if_pos]
    unfold deploy_root_ca_to_service cp_a
    rw [hca]
  rw [hr]
  refine ⟨rfl, ?_, ?_, ?_⟩
  · rw [fget_fput_ne fs _ _ cac (deployDst_ne_certPath service)]
    exact hcert
  · exact fget_fput_ne fs _ _ cac (deployDst_ne_keyPath service)
  · exact fget_fput_self fs _ cac

theorem create_service_certificate_skips_on_key_only_witness :
    (create_service_certificate
        [(CA_KEY, "cakey"), (CA_CERT, "cacert"),
         (["opt", "ai4infra", "nginx", "certs", "private.key"], "leafkey")]
        "nginx" false
        ⟨true, "k", true, "c", true, "sk", true, "csr", true, "crt",
         true⟩).2 = true ∧
    fget (create_service_certificate
        [(CA_KEY, "cakey"), (CA_CERT, "cacert"),
         (["opt", "ai4infra", "nginx", "certs", "private.key"], "leafkey")]
        "nginx" false
        ⟨true, "k", true, "c", true, "sk", true, "csr", true, "crt",
         true⟩).1 (get_service_cert_paths "nginx").2.2 = none ∧
    fget (create_service_certificate
        [(CA_KEY, "cakey"), (CA_CERT, "cacert"),
         (["opt", "ai4infra", "nginx", "certs", "private.key"], "leafkey")]
        "nginx" false
        ⟨true, "k", true, "c", true, "sk", true, "csr", true, "crt",
         true⟩).1 (get_service_cert_paths "nginx").1 =
      fget [(CA_KEY, "cakey"), (CA_CERT, "cacert"),
         (["opt", "ai4infra", "nginx", "certs", "private.key"], "leafkey")]
        (get_service_cert_paths "nginx").1 ∧
    fget (create_service_certificate
        [(CA_KEY, "cakey"), (CA_CERT, "cacert"),
         (["opt", "ai4infra", "nginx", "certs", "private.key"], "leafkey")]
        "nginx" false
        ⟨true, "k", true, "c", true, "sk", true, "csr", true, "crt",
         true⟩).1 (deployDst "nginx") = some "cacert" :=
  create_service_certificate_skips_on_key_only "nginx"
    [(CA_KEY, "cakey"), (CA_CERT, "cacert"),
     (["opt", "ai4infra", "nginx", "certs", "private.key"], "leafkey")]
    ⟨true, "k", true, "c", true, "sk", true, "csr", true, "crt", true⟩
    "cacert" (by decide) (by decide) (by decide) (by decide)

/-! ## GPG file encryption

`encrypt_file` / `decrypt_file` (crypto_manager.py, lines 8-79) check that
the input file exists, then shell out to `gpg --symmetric` /
`gpg --decrypt` with the passphrase on stdin, returning `False` when the
subprocess fails (in particular on a wrong passphrase).
-/

/-- Modelled from the spec: the `gpg` binary is external to the
repository, so its symmetric AES-256 cipher is modelled as an ideal
passphrase-keyed cipher per the spec sentence "Round-trip:
`decrypt(encrypt(data, passphrase), passphrase) == data`;
`decrypt(encrypt(data, passphrase), wrong_passphrase)` fails".  A file
either holds plain bytes or a ciphertext remembering the passphrase that
produced it; decryption succeeds exactly on a ciphertext with the matching
passphrase. -/
inductive GpgContent where
  | bytes (data : String)
  | enc (passphrase : String) (payload : GpgContent)
deriving DecidableEq

/-- `gpg --symmetric` output for the given input bytes. -/
def gpg_symmetric (pass : String) (c : GpgContent) : GpgContent :=
  GpgContent.enc pass c

/-- `gpg --decrypt`: `none` means a non-zero exit (wrong passphrase or
non-GPG input). -/
def gpg_decrypt (pass : String) : GpgContent → Option GpgContent
  | GpgContent.enc p payload => if p = pass then some payload else none
  | GpgContent.bytes _ => none

def encrypt_file (fs : FS GpgContent) (input output : Path) (pass : String) :
    FS GpgContent × Bool :=
  match fget fs input with
  | none => (fs, false)
  | some c => (fput fs output (gpg_symmetric pass c), true)

def decrypt_file (fs : FS GpgContent) (input output : Path) (pass : String) :
    FS GpgContent × Bool :=
  match fget fs input with
  | none => (fs, false)
  | some c =>
    match gpg_decrypt pass c with
    | some payload => (fput fs output payload, true)
    | none => (fs, false)

/-- C3: encrypting an existing file and decrypting the result with the
same passphrase succeeds and reproduces the original contents, while
decrypting it with any different passphrase fails. -/
theorem crypto_roundtrip (fs : FS GpgContent) (input output output2 : Path)
    (pass pass2 : String) (c : GpgContent)
    (hin : fget fs input = some c) (hwrong : pass2 ≠ pass) :
    (encrypt_file fs input output pass).2 = true ∧
    (decrypt_file (encrypt_file fs input output pass).1 output output2
        pass).2 = true ∧
    fget (decrypt_file (encrypt_file fs input output pass).1 output output2
        pass).1 output2 = some c ∧
    (decrypt_file (encrypt_file fs input output pass).1 output output2
        pass2).2 = false := by
  have henc : encrypt_file fs input output pass =
      (fput fs output (GpgContent.enc pass c), true) := by
    unfold encrypt_file
    rw [hin]
    rfl
  rw [henc]
  have hout : fget (fput fs output (GpgContent.enc pass c)) output =
      some (GpgContent.enc pass c) := fget_fput_self fs output _
  refine ⟨rfl, ?_, ?_, ?_⟩
  · unfold decrypt_file
    rw [hout]
    simp [gpg_decrypt]
  · unfold decrypt_file
    rw [hout]
    simp only [gpg_decrypt, if_pos rfl]
    exact fget_fput_self _ output2 c
  · unfold decrypt_file
    rw [hout]
    simp [gpg_decrypt, Ne.symm hwrong]

theorem crypto_roundtrip_witness :
    (encrypt_file [(["tmp", "in.tar"], GpgContent.bytes "DATA")]
        ["tmp", "in.tar"] ["tmp", "out.gpg"] "s3cret").2 = true ∧
    (decrypt_file (encrypt_file
        [(["tmp", "in.tar"], GpgContent.bytes "DATA")]
        ["tmp", "in.tar"] ["tmp", "out.gpg"] "s3cret").1
        ["tmp", "out.gpg"] ["tmp", "plain.tar"] "s3cret").2 = true ∧
    fget (decrypt_file (encrypt_file
        [(["tmp", "in.tar"], GpgContent.bytes "DATA")]
        ["tmp", "in.tar"] ["tmp", "out.gpg"] "s3cret").1
        ["tmp", "out.gpg"] ["tmp", "plain.tar"] "s3cret").1
        ["tmp", "plain.tar"] = some (GpgContent.bytes "DATA") ∧
    (decrypt_file (encrypt_file
        [(["tmp", "in.tar"], GpgContent.bytes "DATA")]
        ["tmp", "in.tar"] ["tmp", "out.gpg"] "s3cret").1
        ["tmp", "out.gpg"] ["tmp", "plain.tar"] "wrong").2 = false :=
  crypto_roundtrip [(["tmp", "in.tar"], GpgContent.bytes "DATA")]
    ["tmp", "in.tar"] ["tmp", "out.gpg"] ["tmp", "plain.tar"]
    "s3cret" "wrong" (GpgContent.bytes "DATA") (by decide) (by decide)

end Ai4Infra
